import Mathlib

/-!
Verification of the ExtJS-Direct JSON-RPC codec (`json/server.go` of r0123r/rpc).

The codec is embedded shallowly:
* JSON payloads (`json.RawMessage` contents that are further unmarshalled) are
  modelled by the dynamically typed value `JValue`; the correlation token `tid`
  is only echoed verbatim, so it is modelled by its raw bytes (`Option String`,
  `none` standing for a Go nil `*json.RawMessage`, i.e. an absent or null field).
* The mutable session (`CodecRequest`) is modelled by explicit state passing:
  each Go method becomes a function from the session (and its other inputs) to
  the updated session together with its results.
* The `http.ResponseWriter` is modelled by a record of the content-type header
  and the list of encoded bodies; `encoder.Encode` additionally takes the
  outcome its I/O would have produced, since the source discards that value.
-/

namespace RpcJson

/-- A dynamically typed JSON value, the model of a decoded `interface\x7b\x7d`
payload (numbers are kept abstract as integers; no claim depends on numeric
semantics). -/
inductive JValue where
| null : JValue
| bool : Bool → JValue
| num : Int → JValue
| str : String → JValue
| arr : List JValue → JValue
| obj : List (String × JValue) → JValue


/-- Go kind name used in `encoding/json` type-error messages. -/
def JValue.goKind : JValue → String
| .null => "null"
| .bool _ => "bool"
| .num _ => "number"
| .str _ => "string"
| .arr _ => "array"
| .obj _ => "object"

/-- `serverRequest`: the decoded inbound message.  Field `Params` is the `data`
field (`none` models a nil `*json.RawMessage`: absent or explicitly null),
`Id` is the raw bytes of `tid` (`none` models nil), `Typ` is the `type` field. -/
structure serverRequest where
  Method : String
  Params : Option JValue
  Id : Option String
  Typ : String
  Action : String


/-- `serverResponse`: the success body `\x7bresult, tid, type, action, method\x7d`. -/
structure serverResponse where
  Result : JValue
  Id : Option String
  Typ : String
  Action : String
  Method : String


/-- `serverErrorResponse`: the error body `\x7bmessage, tid, type, action, method\x7d`. -/
structure serverErrorResponse where
  Error : String
  Id : Option String
  Typ : String
  Action : String
  Method : String


/-- The per-call session: the decoded request plus the captured error slot. -/
structure CodecRequest where
  request : serverRequest
  err : Option String


/-- `newCodecRequest`: construction never fails visibly; the body-decode outcome
(the possibly partially filled request and the `Decode` error) is captured in
the session. -/
def newCodecRequest (req : serverRequest) (decodeErr : Option String) : CodecRequest :=
  { request := req, err := decodeErr }

/-- `Method()`: returns `Action ++ "." ++ Method` when no error was captured,
otherwise the empty name and the captured error. -/
def CodecRequest.Method (c : CodecRequest) : String × Option String :=
  match c.err with
  | none => (c.request.Action ++ "." ++ c.request.Method, none)
  | some e => ("", some e)

/-- `Method()` in explicit state-passing form: the Go method takes the receiver
and performs no write to it, so the updated session is the session itself. -/
def CodecRequest.MethodS (c : CodecRequest) : (String × Option String) × CodecRequest :=
  (c.Method, c)

/-- The error text assigned by `ReadRequest` when the `data` field is non-null. -/
def missingParamsErr : String := "rpc: method request ill-formed: missing params field"

/-- `json.Unmarshal(payload, &params)` where `params := [1]interface\x7b\x7d\x7bargs\x7d`
and `args` is the caller's (dynamically typed) storage, returning the error and
the new contents of the caller's storage.  Go semantics: the literal `null` is
a no-op for array kinds; a JSON array decodes its first element into the single
slot (an empty array zeroes the local slot only, and extra elements are
discarded), so the caller's storage is written exactly when the array is
non-empty; any other payload kind is a type error that touches nothing. -/
def unmarshalOneElem (payload : JValue) (target : JValue) : Option String × JValue :=
  match payload with
  | .null => (none, target)
  | .arr [] => (none, target)
  | .arr (x :: _) => (none, x)
  | p => (some ("json: cannot unmarshal " ++ p.goKind ++
      " into Go value of type [1]interface \x7b\x7d"), target)

/-- Everything `ReadRequest` produces: the updated session, the caller's storage
after the call, the returned error, and the successive values written to the
session's `err` slot (so that a transient assignment that is later overwritten
remains visible in the model). -/
structure ReadResult where
  session : CodecRequest
  target : JValue
  ret : Option String
  errWrites : List (Option String)


/-- `ReadRequest(args)`: if an error is already captured, return it untouched.
Otherwise, when `data` is nil substitute the canonical null raw message; when
`data` is non-nil first write the "missing params field" error to `err`; in
both cases then write the result of unmarshalling `*c.request.Params` into the
one-element positional array wrapping `args` to `err`, and return `err`. -/
def CodecRequest.ReadRequest (c : CodecRequest) (args : JValue) : ReadResult :=
  match c.err with
  | some e => { session := c, target := args, ret := some e, errWrites := [] }
  | none =>
    match c.request.Params with
    | none =>
      let req := { c.request with Params := some JValue.null }
      let r := unmarshalOneElem JValue.null args
      { session := { request := req, err := r.1 }, target := r.2, ret := r.1,
        errWrites := [r.1] }
    | some p =>
      let r := unmarshalOneElem p args
      { session := { request := c.request, err := r.1 }, target := r.2, ret := r.1,
        errWrites := [some missingParamsErr, r.1] }

/-- A body handed to `encoder.Encode`: either a success or an error response. -/
inductive Body where
| success : serverResponse → Body
| failure : serverErrorResponse → Body


/-- The model of the `http.ResponseWriter`: the `Content-Type` header value, if
set, and the bodies encoded onto it. -/
structure ResponseWriter where
  contentType : Option String
  written : List Body


/-- `w.Header().Set("Content-Type", "application/json; charset=utf-8")`. -/
def setContentType (w : ResponseWriter) : ResponseWriter :=
  { w with contentType := some "application/json; charset=utf-8" }

/-- `json.NewEncoder(w).Encode(b)`: appends the body when the encode/write
succeeds (`encErr = none`) and reports the I/O outcome, which the caller in
this codec discards. -/
def Encode (w : ResponseWriter) (b : Body) (encErr : Option String) :
    ResponseWriter × Option String :=
  match encErr with
  | none => ({ w with written := w.written ++ [b] }, none)
  | some e => (w, some e)

/-- `WriteResponse(w, reply, methodErr)`: return the captured error, if any,
without writing; otherwise build and encode an error body (fixed type
"exception") when `methodErr` is non-nil, or a success body when `tid` is
non-nil, writing nothing for a successful notification; return nil.  `encErr`
is the outcome `encoder.Encode` would report; the source discards it. -/
def CodecRequest.WriteResponse (c : CodecRequest) (w : ResponseWriter) (reply : JValue)
    (methodErr : Option String) (encErr : Option String) : ResponseWriter × Option String :=
  match c.err with
  | some e => (w, some e)
  | none =>
    match methodErr with
    | some e =>
      let res : serverErrorResponse :=
        { Error := e, Id := c.request.Id, Typ := "exception",
          Action := c.request.Action, Method := c.request.Method }
      let w1 := setContentType w
      let r := Encode w1 (Body.failure res) encErr
      (r.1, none)
    | none =>
      let res : serverResponse :=
        { Result := reply, Id := c.request.Id, Typ := c.request.Typ,
          Action := c.request.Action, Method := c.request.Method }
      match c.request.Id with
      | none =>
        let _ := { res with Id := some "null" }
        (w, none)
      | some _ =>
        let w1 := setContentType w
        let r := Encode w1 (Body.success res) encErr
        (r.1, none)

/-- A sample well-formed request with a one-element `data` array. -/
def reqCalc : serverRequest :=
  { Method := "Add", Params := some (JValue.arr [JValue.num 5]), Id := some "1",
    Typ := "rpc", Action := "Calc" }

/-- A sample request with a nil `data` field and a null `tid` (a notification). -/
def reqNotify : serverRequest :=
  { Method := "Add", Params := none, Id := none, Typ := "rpc", Action := "Calc" }

/-- An empty response writer. -/
def freshW : ResponseWriter := { contentType := none, written := [] }

end RpcJson

namespace RpcJson

/-- A sample request whose `data` field holds a bare (non-array) value. -/
def reqBadData : serverRequest :=
  { Method := "Add", Params := some (JValue.str "oops"), Id := some "1",
    Typ := "rpc", Action := "Calc" }

/-- C1: for every session whose inbound message has a non-null `data` field,
`ReadRequest` writes the "missing params field" params error to the session's
error slot and, irrespective of this error being set, proceeds to unmarshal the
payload into the one-element positional array wrapping the caller's target,
the unmarshal outcome becoming the session's (and the returned) error. -/
theorem C1_nonnull_data_rejected_then_unmarshalled (c : CodecRequest) (args p : JValue)
    (hok : c.err = none) (hp : c.request.Params = some p) :
    (c.ReadRequest args).errWrites = [some missingParamsErr, (unmarshalOneElem p args).1] ∧
    (c.ReadRequest args).session.err = (unmarshalOneElem p args).1 ∧
    (c.ReadRequest args).ret = (unmarshalOneElem p args).1 ∧
    (c.ReadRequest args).target = (unmarshalOneElem p args).2 := by
  simp [CodecRequest.ReadRequest, hok, hp]

/-- Witness for C1 at a concrete session with `data = [5]`. -/
theorem C1_witness :
    (newCodecRequest reqCalc none).err = none ∧
    (newCodecRequest reqCalc none).request.Params = some (JValue.arr [JValue.num 5]) ∧
    (((newCodecRequest reqCalc none).ReadRequest JValue.null).errWrites
        = [some missingParamsErr,
           (unmarshalOneElem (JValue.arr [JValue.num 5]) JValue.null).1] ∧
      ((newCodecRequest reqCalc none).ReadRequest JValue.null).session.err
        = (unmarshalOneElem (JValue.arr [JValue.num 5]) JValue.null).1 ∧
      ((newCodecRequest reqCalc none).ReadRequest JValue.null).ret
        = (unmarshalOneElem (JValue.arr [JValue.num 5]) JValue.null).1 ∧
      ((newCodecRequest reqCalc none).ReadRequest JValue.null).target
        = (unmarshalOneElem (JValue.arr [JValue.num 5]) JValue.null).2) :=
  ⟨rfl, rfl, C1_nonnull_data_rejected_then_unmarshalled (newCodecRequest reqCalc none)
    JValue.null (JValue.arr [JValue.num 5]) rfl rfl⟩

/-- C2: for every session with no captured decode error and a non-nil dispatch
error, `WriteResponse` writes exactly one error body with fixed type
"exception" (regardless of the inbound `type`), echoed `action` and `method`,
the stringified error under `message` and the request's raw `tid` (even when
nil), sets the JSON content-type header, and returns nil. -/
theorem C2_dispatch_error_writes_exception (c : CodecRequest) (w : ResponseWriter)
    (reply : JValue) (e : String) (hok : c.err = none) :
    (c.WriteResponse w reply (some e) none).1.written
      = w.written ++ [Body.failure
          { Error := e, Id := c.request.Id, Typ := "exception",
            Action := c.request.Action, Method := c.request.Method }] ∧
    (c.WriteResponse w reply (some e) none).1.contentType
      = some "application/json; charset=utf-8" ∧
    (c.WriteResponse w reply (some e) none).2 = none := by
  simp [CodecRequest.WriteResponse, hok, setContentType, Encode]

/-- Witness for C2 at a concrete session whose `tid` is null (a notification). -/
theorem C2_witness :
    (newCodecRequest reqNotify none).err = none ∧
    (newCodecRequest reqNotify none).request.Id = none ∧
    (((newCodecRequest reqNotify none).WriteResponse freshW JValue.null
          (some "overflow") none).1.written
      = freshW.written ++ [Body.failure
          { Error := "overflow",
            Id := (newCodecRequest reqNotify none).request.Id, Typ := "exception",
            Action := (newCodecRequest reqNotify none).request.Action,
            Method := (newCodecRequest reqNotify none).request.Method }] ∧
     ((newCodecRequest reqNotify none).WriteResponse freshW JValue.null
          (some "overflow") none).1.contentType = some "application/json; charset=utf-8" ∧
     ((newCodecRequest reqNotify none).WriteResponse freshW JValue.null
          (some "overflow") none).2 = none) :=
  ⟨rfl, rfl, C2_dispatch_error_writes_exception (newCodecRequest reqNotify none)
    freshW JValue.null "overflow" rfl⟩

/-- C3: for every session with no captured decode error, a null request `tid`
and a nil dispatch error, `WriteResponse` writes no body, sets no header, and
returns nil: the writer is returned unchanged whatever the encoder outcome
would have been. -/
theorem C3_notification_success_writes_nothing (c : CodecRequest) (w : ResponseWriter)
    (reply : JValue) (encErr : Option String)
    (hok : c.err = none) (hid : c.request.Id = none) :
    c.WriteResponse w reply none encErr = (w, none) := by
  simp [CodecRequest.WriteResponse, hok, hid]

/-- Witness for C3 at a concrete notification session. -/
theorem C3_witness :
    (newCodecRequest reqNotify none).err = none ∧
    (newCodecRequest reqNotify none).request.Id = none ∧
    (newCodecRequest reqNotify none).WriteResponse freshW (JValue.num 3) none none
      = (freshW, none) :=
  ⟨rfl, rfl, C3_notification_success_writes_nothing (newCodecRequest reqNotify none)
    freshW (JValue.num 3) none rfl rfl⟩

/-- C4: for every session with no captured decode error, a non-null request
`tid` and a nil dispatch error, `WriteResponse` sets the JSON content-type
header and writes exactly one success body whose `tid` is the request's raw
`tid` value, with `action`, `type` and `method` echoed and the handler's result
embedded under `result`. -/
theorem C4_success_echoes_request (c : CodecRequest) (w : ResponseWriter)
    (reply : JValue) (t : String) (hok : c.err = none) (hid : c.request.Id = some t) :
    (c.WriteResponse w reply none none).1.contentType
      = some "application/json; charset=utf-8" ∧
    (c.WriteResponse w reply none none).1.written
      = w.written ++ [Body.success
          { Result := reply, Id := some t, Typ := c.request.Typ,
            Action := c.request.Action, Method := c.request.Method }] ∧
    (c.WriteResponse w reply none none).2 = none := by
  simp [CodecRequest.WriteResponse, hok, hid, setContentType, Encode]

/-- Witness for C4 at a concrete session with `tid = 1` and result `3`. -/
theorem C4_witness :
    (newCodecRequest reqCalc none).err = none ∧
    (newCodecRequest reqCalc none).request.Id = some "1" ∧
    (((newCodecRequest reqCalc none).WriteResponse freshW (JValue.num 3) none none).1.contentType
        = some "application/json; charset=utf-8" ∧
     ((newCodecRequest reqCalc none).WriteResponse freshW (JValue.num 3) none none).1.written
        = freshW.written ++ [Body.success
            { Result := JValue.num 3, Id := some "1",
              Typ := (newCodecRequest reqCalc none).request.Typ,
              Action := (newCodecRequest reqCalc none).request.Action,
              Method := (newCodecRequest reqCalc none).request.Method }] ∧
     ((newCodecRequest reqCalc none).WriteResponse freshW (JValue.num 3) none none).2 = none) :=
  ⟨rfl, rfl, C4_success_echoes_request (newCodecRequest reqCalc none) freshW
    (JValue.num 3) "1" rfl rfl⟩

/-- C5 counterexample: with a nil `data` field and a caller target pre-holding
the value `42`, `ReadRequest` substitutes the canonical null payload and
succeeds, yet the target is left at `42` — it is not bound to a representation
of null, because unmarshalling the literal null into the positional array is a
no-op. -/
theorem C5_counterexample :
    ((newCodecRequest reqNotify none).ReadRequest (JValue.num 42)).session.request.Params
        = some JValue.null ∧
    ((newCodecRequest reqNotify none).ReadRequest (JValue.num 42)).ret = none ∧
    ((newCodecRequest reqNotify none).ReadRequest (JValue.num 42)).target ≠ JValue.null :=
  ⟨rfl, rfl, fun h => nomatch h⟩

/-- C5 (amended): for every session whose inbound `data` field is absent or
null, `ReadRequest` substitutes the canonical null payload and returns nil, and
the null unmarshal is a no-op leaving the caller's target at its pre-call
value — so a zero-initialized (null) target remains null, but the target is
never actively written. -/
theorem C5_null_data_substitutes_canonical_null (c : CodecRequest) (args : JValue)
    (hok : c.err = none) (hp : c.request.Params = none) :
    (c.ReadRequest args).session.request.Params = some JValue.null ∧
    (c.ReadRequest args).ret = none ∧
    (c.ReadRequest args).session.err = none ∧
    (c.ReadRequest args).target = args := by
  simp [CodecRequest.ReadRequest, hok, hp, unmarshalOneElem]

/-- Witness for the amended C5 at a concrete session whose caller target is the
zero (null) value: the target ends as null. -/
theorem C5_witness :
    (newCodecRequest reqNotify none).err = none ∧
    (newCodecRequest reqNotify none).request.Params = none ∧
    (((newCodecRequest reqNotify none).ReadRequest JValue.null).session.request.Params
        = some JValue.null ∧
     ((newCodecRequest reqNotify none).ReadRequest JValue.null).ret = none ∧
     ((newCodecRequest reqNotify none).ReadRequest JValue.null).session.err = none ∧
     ((newCodecRequest reqNotify none).ReadRequest JValue.null).target = JValue.null) :=
  ⟨rfl, rfl, C5_null_data_substitutes_canonical_null (newCodecRequest reqNotify none)
    JValue.null rfl rfl⟩

/-- C6: for every session, `Method` returns the captured decode error with an
empty name when construction captured one, and otherwise the request's
`action` and `method` joined by a single "." with a nil error. -/
theorem C6_method_resolution (c : CodecRequest) :
    (∀ e, c.err = some e → c.Method = ("", some e)) ∧
    (c.err = none → c.Method = (c.request.Action ++ "." ++ c.request.Method, none)) := by
  refine ⟨fun e he => ?_, fun h => ?_⟩
  · simp [CodecRequest.Method, he]
  · simp [CodecRequest.Method, h]

/-- Witness for C6 on a failed and on a successful concrete session. -/
theorem C6_witness :
    (newCodecRequest reqCalc (some "unexpected EOF")).Method = ("", some "unexpected EOF") ∧
    (newCodecRequest reqCalc none).Method = ("Calc.Add", none) :=
  ⟨(C6_method_resolution (newCodecRequest reqCalc (some "unexpected EOF"))).1
      "unexpected EOF" rfl,
   by rw [(C6_method_resolution (newCodecRequest reqCalc none)).2 rfl]; rfl⟩

/-- C7: for every session in which an error was captured (at construction or by
`ReadRequest`), `WriteResponse` returns that error as a plain error, writing no
body and no header: the writer is returned unchanged. -/
theorem C7_captured_error_short_circuits (c : CodecRequest) (w : ResponseWriter)
    (reply : JValue) (methodErr encErr : Option String) (e : String)
    (he : c.err = some e) :
    c.WriteResponse w reply methodErr encErr = (w, some e) := by
  simp [CodecRequest.WriteResponse, he]

/-- Witness for C7 on the session left by a failed `ReadRequest` (a params
error: bare-value `data`). -/
theorem C7_witness :
    ((newCodecRequest reqBadData none).ReadRequest JValue.null).session.err
        = some "json: cannot unmarshal string into Go value of type [1]interface \x7b\x7d" ∧
    ((newCodecRequest reqBadData none).ReadRequest JValue.null).session.WriteResponse
        freshW JValue.null none none
      = (freshW,
         some "json: cannot unmarshal string into Go value of type [1]interface \x7b\x7d") :=
  ⟨rfl, C7_captured_error_short_circuits
    ((newCodecRequest reqBadData none).ReadRequest JValue.null).session freshW
    JValue.null none none
    "json: cannot unmarshal string into Go value of type [1]interface \x7b\x7d" rfl⟩

/-- C8: `Method` is a pure projection with no side effect on the session: the
state-passing form returns the session unchanged, and a second call on that
returned session yields the identical (name, error) result. -/
theorem C8_method_is_pure (c : CodecRequest) :
    (c.MethodS).2 = c ∧ ((c.MethodS).2.MethodS).1 = (c.MethodS).1 :=
  ⟨rfl, rfl⟩

/-- C9: for every session whose `data` field holds a one-element array,
`ReadRequest` returns nil and binds the caller's target to that element: the
transient "missing params field" assignment is overwritten by the unmarshal
result and never observable. -/
theorem C9_transient_error_overwritten (c : CodecRequest) (args x : JValue)
    (hok : c.err = none) (hp : c.request.Params = some (JValue.arr [x])) :
    (c.ReadRequest args).ret = none ∧
    (c.ReadRequest args).session.err = none ∧
    (c.ReadRequest args).target = x := by
  simp [CodecRequest.ReadRequest, hok, hp, unmarshalOneElem]

/-- Witness for C9 at a concrete session with `data = [5]`. -/
theorem C9_witness :
    (newCodecRequest reqCalc none).err = none ∧
    (newCodecRequest reqCalc none).request.Params = some (JValue.arr [JValue.num 5]) ∧
    (((newCodecRequest reqCalc none).ReadRequest JValue.null).ret = none ∧
     ((newCodecRequest reqCalc none).ReadRequest JValue.null).session.err = none ∧
     ((newCodecRequest reqCalc none).ReadRequest JValue.null).target = JValue.num 5) :=
  ⟨rfl, rfl, C9_transient_error_overwritten (newCodecRequest reqCalc none)
    JValue.null (JValue.num 5) rfl rfl⟩

/-- C10: for every session with no captured error, `WriteResponse` returns nil
unconditionally: for every dispatch error and every outcome of the encoder
(whose return value the code discards), the returned error is nil. -/
theorem C10_write_response_returns_nil (c : CodecRequest) (w : ResponseWriter)
    (reply : JValue) (methodErr encErr : Option String) (hok : c.err = none) :
    (c.WriteResponse w reply methodErr encErr).2 = none := by
  cases methodErr <;> cases h : c.request.Id <;>
    simp [CodecRequest.WriteResponse, hok, h, Encode]

/-- Witness for C10 with a dispatch error and a failing encoder. -/
theorem C10_witness :
    (newCodecRequest reqCalc none).err = none ∧
    ((newCodecRequest reqCalc none).WriteResponse freshW (JValue.num 3)
        (some "overflow") (some "broken pipe")).2 = none :=
  ⟨rfl, C10_write_response_returns_nil (newCodecRequest reqCalc none) freshW
    (JValue.num 3) (some "overflow") (some "broken pipe") rfl⟩

end RpcJson
